import Mathlib

/-!
Shallow embedding of the SentimAI provider-abstraction and mock-simulation
layer (services/geminiService.ts, richest variant).  JS runtime values
produced by JSON.parse / response.json() are modelled by `Json`; `undefined`
is `Option.none` at use sites.  JS numbers are modelled by `ℚ` (the code
only adds, multiplies and compares values in [0,1], where binary floating
point and rational arithmetic agree on every property stated below).
Unicode-aware `toLowerCase` is modelled on the ASCII range only, which is
exact for every keyword list in the source.
-/

namespace SentimAI

/-- JSON values as produced by the JS runtime parser.  Object fields keep
their textual order; duplicate keys are resolved last-wins at lookup time,
matching `JSON.parse`. -/
inductive Json where
  | null : Json
  | bool : Bool → Json
  | num : ℚ → Json
  | str : String → Json
  | arr : List Json → Json
  | obj : List (String × Json) → Json

/-- JS truthiness of a defined value (`false`, `0`, `""`, `null` are falsy;
arrays and objects are always truthy). -/
def jsTruthy : Json → Bool
  | .null => false
  | .bool b => b
  | .num q => !(q == 0)
  | .str s => !(s == "")
  | .arr _ => true
  | .obj _ => true

/-- Property read `j[k]` on an object; `none` models JS `undefined`.
Last occurrence wins, as in `JSON.parse` duplicate-key semantics. -/
def getField : Json → String → Option Json
  | .obj fields, k => fields.foldl (fun acc p => if p.1 == k then some p.2 else acc) none
  | _, _ => none

/-- Optional-chaining property read `v?.k`. -/
def jsFieldOpt (v : Option Json) (k : String) : Option Json :=
  match v with
  | some j => getField j k
  | none => none

/-- Element read `j[i]` for array values; other receivers give `undefined`.
Reads on `null`/`undefined` receivers throw in JS and are handled at the
single call site (`data.choices[0]`). -/
def jsIndex : Json → Nat → Option Json
  | .arr xs, i => xs.get? i
  | _, _ => none

/-- JS `a || b` for a defined left operand. -/
def jsOrJ (a b : Json) : Json := if jsTruthy a then a else b

/-- JS `a || b` where the left operand may be `undefined`. -/
def jsOr (a : Option Json) (b : Json) : Json :=
  match a with
  | some v => jsOrJ v b
  | none => b

/-- JS `s || d` for an optional string (`undefined` and `""` are falsy). -/
def strOr (o : Option String) (d : String) : String :=
  match o with
  | some s => if s == "" then d else s
  | none => d

/-- JS `s || d` for a present string. -/
def strOrS (s d : String) : String := if s == "" then d else s

/-- Decidable string-containment, the model of `String.prototype.includes`. -/
def charsHavePre (pat s : List Char) : Bool :=
  match pat, s with
  | [], _ => true
  | _ :: _, [] => false
  | p :: ps, c :: cs => p == c && charsHavePre ps cs

/-- Scans every suffix for the pattern. -/
def charsHaveSub (s pat : List Char) : Bool :=
  match s with
  | [] => pat.isEmpty
  | c :: cs => charsHavePre pat (c :: cs) || charsHaveSub cs pat

/-- Model of `s.includes(pat)`. -/
def strIncludes (s pat : String) : Bool := charsHaveSub s.data pat.data

/-- ASCII lower-casing, the model of `toLowerCase` on the inputs this code
feeds it (exact on the ASCII range). -/
def lowerStr (s : String) : String := String.mk (s.data.map Char.toLower)

/-- Model of `w.replace(/[^a-zA-Z]/g, '')`: keep exactly ASCII letters. -/
def stripNonAlpha (w : String) : String := String.mk (w.data.filter Char.isAlpha)

/-- Splits characters at every separator hit; like JS `split`, adjacent
separators and boundary separators yield empty fragments. -/
def splitCharsBy (p : Char → Bool) : List Char → List Char → List String
  | [], acc => [String.mk acc.reverse]
  | c :: cs, acc =>
    if p c then String.mk acc.reverse :: splitCharsBy p cs []
    else splitCharsBy p cs (c :: acc)

/-- Model of `text.split(' ')`: split on the single space character. -/
def splitSpace (s : String) : List String := splitCharsBy (fun c => c == ' ') s.data []

/-- Whitespace tokenization, as the specification words it. -/
def splitWs (s : String) : List String := splitCharsBy Char.isWhitespace s.data []

/-! ### JSON.parse

Recursive-descent parser for the JSON fragment exercised by this service:
literals, strings with the common single-character escapes, decimal numbers
without exponents, arrays and objects.  `none` models a thrown
`SyntaxError`. -/

/-- Skips JSON whitespace. -/
def skipWs : List Char → List Char
  | [] => []
  | c :: cs => if c == ' ' || c == '\n' || c == '\t' || c == '\r' then skipWs cs else c :: cs

/-- Consumes a maximal digit run, returning its value, its width and the rest. -/
def digitsAux : List Char → Nat → Nat → Nat × Nat × List Char
  | c :: cs, acc, n =>
    if c.isDigit then digitsAux cs (acc * 10 + (c.toNat - 48)) (n + 1) else (acc, n, c :: cs)
  | [], acc, n => (acc, n, [])

/-- Body of a string literal, after the opening quote. -/
def strAux : List Char → List Char → Option (String × List Char)
  | [], _ => none
  | c :: cs, acc =>
    if c == '\"' then some (String.mk acc.reverse, cs)
    else if c == '\\' then
      match cs with
      | [] => none
      | e :: cs2 =>
        if e == '\"' then strAux cs2 ('\"' :: acc)
        else if e == '\\' then strAux cs2 ('\\' :: acc)
        else if e == '/' then strAux cs2 ('/' :: acc)
        else if e == 'n' then strAux cs2 ('\n' :: acc)
        else if e == 't' then strAux cs2 ('\t' :: acc)
        else if e == 'r' then strAux cs2 ('\r' :: acc)
        else none
    else strAux cs (c :: acc)

/-- Parses a JSON number starting at the given characters. -/
def parseNum (cs : List Char) : Option (ℚ × List Char) :=
  let (sign, cs1) : ℚ × List Char :=
    match cs with
    | c :: rest => if c == '-' then (-1, rest) else (1, cs)
    | [] => (1, cs)
  match digitsAux cs1 0 0 with
  | (_, 0, _) => none
  | (ip, _, rest) =>
    match rest with
    | c :: rest2 =>
      if c == '.' then
        match digitsAux rest2 0 0 with
        | (_, 0, _) => none
        | (fp, k, rest3) => some (sign * ((ip : ℚ) + (fp : ℚ) / ((10 : ℚ) ^ k)), rest3)
      else some (sign * (ip : ℚ), rest)
    | [] => some (sign * (ip : ℚ), rest)

mutual

/-- Parses one JSON value; the fuel bounds nesting and element count. -/
def parseVal : Nat → List Char → Option (Json × List Char)
  | 0, _ => none
  | fuel + 1, cs =>
    match skipWs cs with
    | [] => none
    | c :: rest =>
      if c == '\"' then (strAux rest []).map (fun p => (Json.str p.1, p.2))
      else if c == '\x7b' then
        match skipWs rest with
        | '\x7d' :: rest2 => some (Json.obj [], rest2)
        | cs2 => (parseObjTail fuel cs2).map (fun p => (Json.obj p.1, p.2))
      else if c == '[' then
        match skipWs rest with
        | ']' :: rest2 => some (Json.arr [], rest2)
        | cs2 => (parseArrTail fuel cs2).map (fun p => (Json.arr p.1, p.2))
      else if c == 't' then
        match rest with
        | 'r' :: 'u' :: 'e' :: rest2 => some (Json.bool true, rest2)
        | _ => none
      else if c == 'f' then
        match rest with
        | 'a' :: 'l' :: 's' :: 'e' :: rest2 => some (Json.bool false, rest2)
        | _ => none
      else if c == 'n' then
        match rest with
        | 'u' :: 'l' :: 'l' :: rest2 => some (Json.null, rest2)
        | _ => none
      else (parseNum (c :: rest)).map (fun p => (Json.num p.1, p.2))

/-- Parses `value (, value)*` then a closing bracket. -/
def parseArrTail : Nat → List Char → Option (List Json × List Char)
  | 0, _ => none
  | fuel + 1, cs =>
    match parseVal fuel cs with
    | none => none
    | some (j, rest) =>
      match skipWs rest with
      | ',' :: rest2 =>
        (parseArrTail fuel (skipWs rest2)).map (fun p => (j :: p.1, p.2))
      | ']' :: rest2 => some ([j], rest2)
      | _ => none

/-- Parses `"key": value (, "key": value)*` then a closing brace. -/
def parseObjTail : Nat → List Char → Option (List (String × Json) × List Char)
  | 0, _ => none
  | fuel + 1, cs =>
    match skipWs cs with
    | '\"' :: rest =>
      match strAux rest [] with
      | none => none
      | some (k, rest2) =>
        match skipWs rest2 with
        | ':' :: rest3 =>
          match parseVal fuel (skipWs rest3) with
          | none => none
          | some (v, rest4) =>
            match skipWs rest4 with
            | ',' :: rest5 =>
              (parseObjTail fuel (skipWs rest5)).map (fun p => ((k, v) :: p.1, p.2))
            | '\x7d' :: rest5 => some ([(k, v)], rest5)
            | _ => none
        | _ => none
    | _ => none

end

/-- Model of `JSON.parse`: `none` is a thrown `SyntaxError` (malformed
input, trailing garbage, or a construct outside the modelled fragment). -/
def parseJson (s : String) : Option Json :=
  match parseVal (s.length + 1) s.data with
  | some (j, rest) => if (skipWs rest).isEmpty then some j else none
  | none => none

/-! ### Data model (types.ts) -/

/-- The `SentimentType` string enum. -/
inductive SentimentType where
  | POSITIVE : SentimentType
  | NEGATIVE : SentimentType
  | NEUTRAL : SentimentType
deriving DecidableEq

/-- Runtime string carried by each enum member. -/
def SentimentType.toStr : SentimentType → String
  | .POSITIVE => "Positive"
  | .NEGATIVE => "Negative"
  | .NEUTRAL => "Neutral"

/-- The `SentimentAnalysis` interface as the mock layer constructs it:
all four fields present and well typed. -/
structure SentimentAnalysis where
  sentiment : SentimentType
  score : ℚ
  reasoning : String
  keywords : List String

/-- Analysis record as it exists at runtime on a returned tweet: the live
adapters copy unchecked JSON fields, so each field is a JS value that may
be `undefined` (`none`). -/
structure AnalysisV where
  sentiment : Option Json
  score : Option Json
  reasoning : Option Json
  keywords : Option Json

/-- Embeds a well-typed mock analysis into the runtime shape. -/
def SentimentAnalysis.toV (a : SentimentAnalysis) : AnalysisV :=
  { sentiment := some (.str a.sentiment.toStr)
    score := some (.num a.score)
    reasoning := some (.str a.reasoning)
    keywords := some (.arr (a.keywords.map Json.str)) }

/-- The `TweetData` interface.  `text` is a raw JS value because the live
batch path copies `item.text` from unchecked JSON. -/
structure TweetData where
  id : String
  text : Option Json
  author : String
  timestamp : String
  analysis : Option AnalysisV

/-! ### Environment, transport and error model -/

/-- The `AIProvider` union type. -/
inductive AIProvider where
  | gemini : AIProvider
  | groq : AIProvider

/-- Process-wide configuration: `process.env.API_KEY` and
`process.env.GROQ_API_KEY` (`none` = variable unset). -/
structure Env where
  apiKey : Option String
  groqApiKey : Option String

/-- JS truthiness of an environment variable (unset and `""` are falsy). -/
def keyPresent : Option String → Bool
  | some k => !(k == "")
  | none => false

/-- Outcome of one `ai.models.generateContent` call: either the SDK call
rejects, or it resolves and `response.text` is the given optional string. -/
inductive GeminiOutcome where
  | sdkFail : String → GeminiOutcome
  | ok : Option String → GeminiOutcome

/-- Outcome of the one `fetch` to the Groq chat-completions endpoint.
`reject msg` is a network-level failure (the rejection's `.message`, which
may be absent).  `resp ok statusText body` is an HTTP response; `body` is
the result of `response.json()`, where `Except.error pm` means the body was
not valid JSON and the runtime raised a `SyntaxError` with message `pm`. -/
inductive FetchOutcome where
  | reject : Option String → FetchOutcome
  | resp : Bool → String → Except String Json → FetchOutcome

/-- One transport oracle per network call site. -/
structure Transport where
  geminiSingle : GeminiOutcome
  geminiBatch : GeminiOutcome
  geminiExplain : GeminiOutcome
  groqFetch : FetchOutcome

/-- Failures an operation can reject with.  `thrown msg` is an `Error`
constructed by the service code; `parseThrown` is an uncaught `SyntaxError`
from a facade-level `JSON.parse`; `typeErrWrapped` is a runtime `TypeError`
re-wrapped by `callGroq`'s catch; `typeErrThrown` is an uncaught
`TypeError` (`.map` on a non-array); `sdkThrown` propagates a Gemini SDK
rejection. -/
inductive JsErr where
  | thrown : String → JsErr
  | parseThrown : JsErr
  | typeErrWrapped : JsErr
  | typeErrThrown : JsErr
  | sdkThrown : String → JsErr

/-- Ambient per-call context: the stream of `Math.random()` draws, the
stream of `crypto.randomUUID()` results, and `new Date().toISOString()`. -/
structure Ctx where
  rand : Nat → ℚ
  uuid : Nat → String
  now : String

/-! ### Credential inspector -/

/-- `hasValidKey`: a usable credential is a set, non-empty secret. -/
def hasValidKey (provider : AIProvider) (env : Env) : Bool :=
  match provider with
  | .gemini =>
    match env.apiKey with
    | some k => decide (0 < k.length)
    | none => false
  | .groq =>
    match env.groqApiKey with
    | some k => decide (0 < k.length)
    | none => false

/-! ### Heuristic mock classifier (`getMockAnalysis`) -/

/-- Positive-list check on the lower-cased text. -/
def mockPosHit (text : String) : Bool :=
  let lower := lowerStr text
  strIncludes lower ("love") || strIncludes lower ("best") || strIncludes lower ("perfect")
    || strIncludes lower ("wow") || strIncludes lower ("game")

/-- Negative-list check on the lower-cased text. -/
def mockNegHit (text : String) : Bool :=
  let lower := lowerStr text
  strIncludes lower ("bad") || strIncludes lower ("worst") || strIncludes lower ("waste")
    || strIncludes lower ("terrible") || strIncludes lower ("buggy")

/-- Surviving tokens of the classifier's keyword pass: split on the space
character, strip non-letters, lower-case, keep words longer than 4 whose
text does not contain `about` or `there` as a substring. -/
def mockTokens (text : String) : List String :=
  ((splitSpace text).map (fun w => lowerStr (stripNonAlpha w))).filter
    (fun w => decide (4 < w.length) && !(strIncludes w ("about")) && !(strIncludes w ("there")))

/-- Keyword selection of `getMockAnalysis`: first three survivors, else the
fixed filler pair. -/
def extractKeywords (text : String) : List String :=
  let words := mockTokens text
  if 0 < (words.take 3).length then words.take 3 else ["demo", "analysis"]

/-- The mock classifier; `r` is its one `Math.random()` draw. -/
def getMockAnalysis (text : String) (r : ℚ) : SentimentAnalysis :=
  { sentiment :=
      if mockPosHit text then SentimentType.POSITIVE
      else if mockNegHit text then SentimentType.NEGATIVE
      else SentimentType.NEUTRAL
    score := 0.75 + r * 0.24
    reasoning := "Simulated analysis based on keyword matching in Demo Mode."
    keywords := extractKeywords text }

/-! ### Mock corpus generator (`MOCK_TEMPLATES` and the mock batch path) -/

/-- A one-hole template `pre ++ t ++ suf`, the shape of every entry of
`MOCK_TEMPLATES`. -/
def tmpl (pre suf : String) : String → String := fun t => pre ++ t ++ suf

/-- The template pools, verbatim from the source. -/
def MOCK_TEMPLATES : SentimentType → List (String → String)
  | .POSITIVE =>
    [ tmpl ("") (" is absolutely changing the game! loving it.")
    , tmpl ("Can\x27t wait to get my hands on ") ("!")
    , tmpl ("Honestly, ") (" is the best thing I\x27ve seen all year.")
    , tmpl ("Huge props to the team behind ") (". Incredible work.")
    , tmpl ("I\x27m obsessed with ") (". It\x27s just perfect.")
    , tmpl ("") (" exceeded all my expectations. 10/10.")
    , tmpl ("Finally tried ") (" and wow... just wow.")
    , tmpl ("If you haven\x27t checked out ") (" yet, you\x27re missing out!") ]
  | .NEGATIVE =>
    [ tmpl ("I don\x27t understand the hype around ") (". It feels overpriced.")
    , tmpl ("") (" disappointed me today. Expected better performance.")
    , tmpl ("Not a fan of the new ") (" update. It broke my workflow.")
    , tmpl ("Why is everyone talking about ") ("? It\x27s actually terrible.")
    , tmpl ("I regret spending time on ") (". complete waste.")
    , tmpl ("") (" is extremely buggy and unstable.")
    , tmpl ("I tried to like ") (", but I just can\x27t.")
    , tmpl ("") (" is the worst release so far.") ]
  | .NEUTRAL =>
    [ tmpl ("Just saw the news about ") (". Interesting developments.")
    , tmpl ("Has anyone else tried ") ("? Curious about your thoughts.")
    , tmpl ("") (" is exactly what you\x27d expect. Nothing more, nothing less.")
    , tmpl ("Still on the fence about ") (".")
    , tmpl ("Reading up on the documentation for ") (".")
    , tmpl ("Here is a summary of the ") (" launch event.")
    , tmpl ("") (" is available now globally.") ]

/-- `Math.floor(q)` clamped into `Nat` for array indexing. -/
def ratFloorNat (q : ℚ) : Nat := (Rat.floor q).toNat

/-- Keyword pass of the mock batch path.  Unlike the classifier it tests
stop words by equality (`w !== 'about'`), and its fallback is the
lower-cased first word of the topic. -/
def batchKeywords (text topic : String) : List String :=
  let keywords :=
    (((splitSpace text).map (fun w => lowerStr (stripNonAlpha w))).filter
      (fun w => decide (4 < w.length) && !(w == "about") && !(w == "there"))).take 3
  if keywords.isEmpty then [lowerStr ((splitSpace topic).headD "")] else keywords

/-- Weighted sentiment-class draw of the mock batch generator:
`rand > 0.6` positive, `rand > 0.3` negative, else neutral. -/
def mockClassOf (rand : ℚ) : SentimentType :=
  if 0.6 < rand then SentimentType.POSITIVE
  else if 0.3 < rand then SentimentType.NEGATIVE
  else SentimentType.NEUTRAL

/-- Uniform template pick
`templates[Math.floor(Math.random() * templates.length)]`.  An out-of-range
index would read `undefined` in JS; the default template here returns `""`,
which an in-range index (every `r` in `[0,1)`) never reaches. -/
def mockTemplateOf (ty : SentimentType) (r : ℚ) : String → String :=
  (MOCK_TEMPLATES ty).getD (ratFloorNat (r * (MOCK_TEMPLATES ty).length)) (fun _ => "")

/-- One iteration of the mock batch generator.  Item `i` consumes the four
`Math.random()` draws `4*i .. 4*i+3` (class, template index, author handle,
score) in source order and the `i`-th UUID. -/
def mockBatchItem (topic : String) (ctx : Ctx) (i : Nat) : TweetData :=
  let ty := mockClassOf (ctx.rand (4 * i))
  let text := mockTemplateOf ty (ctx.rand (4 * i + 1)) topic
  { id := ctx.uuid i
    text := some (.str text)
    author := "@mock_user_" ++ toString (ratFloorNat (ctx.rand (4 * i + 2) * 1000))
    timestamp := ctx.now
    analysis := some (SentimentAnalysis.toV
      { sentiment := ty
        score := 0.7 + ctx.rand (4 * i + 3) * 0.25
        reasoning := "Simulated analysis in Demo Mode."
        keywords := batchKeywords text topic }) }

/-! ### Groq adapter (`callGroq`) -/

/-- `data.choices[0]?.message?.content || "{}"`.  `data.choices` being
`undefined` or `null` makes the bare element access throw a `TypeError`,
which `callGroq`'s catch re-wraps.  Non-string truthy `content` values are
outside the modelled envelope (the chat API returns string content). -/
def groqContent (j : Json) : Except JsErr String :=
  match getField j ("choices") with
  | none => Except.error .typeErrWrapped
  | some .null => Except.error .typeErrWrapped
  | some c =>
    match jsFieldOpt (jsFieldOpt (jsIndex c 0) ("message")) ("content") with
    | some (.str s) => Except.ok (if s == "" then "\x7b\x7d" else s)
    | _ => Except.ok ("\x7b\x7d")

/-- `err.error?.message || "Groq API Error: " + statusText` for a non-ok
response whose body parsed. -/
def groqErrMsg (j : Json) (statusText : String) : String :=
  match jsFieldOpt (getField j ("error")) ("message") with
  | some (.str s) => strOrS s ("Groq API Error: " ++ statusText)
  | _ => "Groq API Error: " ++ statusText

/-- The Groq helper.  Returns the assistant content string or a failure,
paired with the number of transport invocations.  `jsonMode` only shapes
the request body and does not affect the modelled outcome. -/
def callGroq (env : Env) (fo : FetchOutcome) (jsonMode : Bool) : Except JsErr String × Nat :=
  if keyPresent env.groqApiKey then
    match fo with
    | .reject m => (Except.error (.thrown (strOr m ("Failed to connect to Groq API"))), 1)
    | .resp ok statusText body =>
      if ok then
        match body with
        | Except.error pm =>
          (Except.error (.thrown (strOrS pm ("Failed to connect to Groq API"))), 1)
        | Except.ok j =>
          match groqContent j with
          | Except.ok s => (Except.ok s, 1)
          | Except.error e => (Except.error e, 1)
      else
        match body with
        | Except.error pm =>
          (Except.error (.thrown (strOrS pm ("Failed to connect to Groq API"))), 1)
        | Except.ok j => (Except.error (.thrown (groqErrMsg j statusText)), 1)
  else (Except.error (.thrown "API_KEY_MISSING"), 0)

/-! ### Facade operations -/

/-- Shared tail of `analyzeSingleTweet`'s live branches: builds the tweet
from the unchecked parsed object.  Only `keywords` is defaulted
(`result.keywords || []`). -/
def buildSingleResult (text : String) (result : Json) (ctx : Ctx) : TweetData :=
  { id := ctx.uuid 0
    text := some (.str text)
    author := "@currentUser"
    timestamp := ctx.now
    analysis := some
      { sentiment := getField result ("sentiment")
        score := getField result ("score")
        reasoning := getField result ("reasoning")
        keywords := some (jsOr (getField result ("keywords")) (Json.arr [])) } }

/-- `analyzeSingleTweet(text, useMock, provider)`; second component counts
transport invocations. -/
def analyzeSingleTweet (text : String) (useMock : Bool) (provider : AIProvider)
    (env : Env) (tr : Transport) (ctx : Ctx) : Except JsErr TweetData × Nat :=
  if useMock then
    (Except.ok
      { id := ctx.uuid 0
        text := some (.str text)
        author := "@DemoUser"
        timestamp := ctx.now
        analysis := some (SentimentAnalysis.toV (getMockAnalysis text (ctx.rand 0))) }, 0)
  else
    match provider with
    | .gemini =>
      if keyPresent env.apiKey then
        match tr.geminiSingle with
        | .sdkFail m => (Except.error (.sdkThrown m), 1)
        | .ok txt =>
          match parseJson (strOr txt ("\x7b\x7d")) with
          | some result => (Except.ok (buildSingleResult text result ctx), 1)
          | none => (Except.error .parseThrown, 1)
      else (Except.error (.thrown "API_KEY_MISSING"), 0)
    | .groq =>
      match callGroq env tr.groqFetch true with
      | (Except.error e, n) => (Except.error e, n)
      | (Except.ok jsonStr, n) =>
        match parseJson jsonStr with
        | some result => (Except.ok (buildSingleResult text result ctx), n)
        | none => (Except.error .parseThrown, n)

/-- Shared item builder of both live batch paths: every field is copied
from the unchecked JSON item; `keywords` has no default here.  Item `i`
consumes the `i`-th UUID and one `Math.random()` draw. -/
def buildBatchItem (ctx : Ctx) (i : Nat) (item : Json) : TweetData :=
  { id := ctx.uuid i
    text := getField item ("text")
    author := "@user_" ++ toString (ratFloorNat (ctx.rand i * 10000))
    timestamp := ctx.now
    analysis := some
      { sentiment := getField item ("sentiment")
        score := getField item ("score")
        reasoning := getField item ("reasoning")
        keywords := getField item ("keywords") } }

/-- `parsed.tweets || parsed || []`, the envelope unwrapping of the Groq
batch path. -/
def unwrapTweets (parsed : Json) : Json :=
  jsOrJ (jsOr (getField parsed ("tweets")) parsed) (Json.arr [])

/-- View of a parsed value as the array `.map` iterates; `none` makes the
JS call throw a `TypeError`. -/
def asArray : Json → Option (List Json)
  | .arr xs => some xs
  | _ => none

/-- `generateAndAnalyzeTopic(topic, count, useMock, provider)`. -/
def generateAndAnalyzeTopic (topic : String) (count : Nat) (useMock : Bool)
    (provider : AIProvider) (env : Env) (tr : Transport) (ctx : Ctx) :
    Except JsErr (List TweetData) × Nat :=
  if useMock then
    (Except.ok ((List.range count).map (mockBatchItem topic ctx)), 0)
  else
    match provider with
    | .gemini =>
      if keyPresent env.apiKey then
        match tr.geminiBatch with
        | .sdkFail m => (Except.error (.sdkThrown m), 1)
        | .ok txt =>
          match parseJson (strOr txt ("[]")) with
          | some raw =>
            match asArray raw with
            | some items =>
              (Except.ok (items.enum.map (fun p => buildBatchItem ctx p.1 p.2)), 1)
            | none => (Except.error .typeErrThrown, 1)
          | none => (Except.error .parseThrown, 1)
      else (Except.error (.thrown "API_KEY_MISSING"), 0)
    | .groq =>
      match callGroq env tr.groqFetch true with
      | (Except.error e, n) => (Except.error e, n)
      | (Except.ok jsonStr, n) =>
        match parseJson jsonStr with
        | some parsed =>
          match asArray (unwrapTweets parsed) with
          | some items =>
            (Except.ok (items.enum.map (fun p => buildBatchItem ctx p.1 p.2)), n)
          | none => (Except.error .typeErrThrown, n)
        | none => (Except.error .parseThrown, n)

/-- `explainNLPConcept(concept, useMock, provider)`. -/
def explainNLPConcept (concept : String) (useMock : Bool) (provider : AIProvider)
    (env : Env) (tr : Transport) (ctx : Ctx) : Except JsErr String × Nat :=
  if useMock then
    (Except.ok ("[DEMO MODE] " ++ concept ++
      " is a fundamental technique in NLP. In a real notebook, this cell would explain how " ++
      concept ++
      " transforms raw text into structured data suitable for machine learning models using libraries like NLTK or scikit-learn."), 0)
  else
    match provider with
    | .gemini =>
      if keyPresent env.apiKey then
        match tr.geminiExplain with
        | .sdkFail m => (Except.error (.sdkThrown m), 1)
        | .ok txt => (Except.ok (strOr txt ("Could not generate explanation.")), 1)
      else (Except.error (.thrown "API_KEY_MISSING"), 0)
    | .groq => callGroq env tr.groqFetch false

/-! ### Fixtures used by witnesses -/

/-- A deterministic context: every `Math.random()` draw is `0`. -/
def ctx0 : Ctx := ⟨fun _ => 0, fun _ => "id", "t"⟩

/-- A transport that never gets consulted on the paths under test. -/
def tr0 : Transport := ⟨.ok none, .ok none, .ok none, .reject none⟩

/-- A configuration with no credential at all. -/
def env0 : Env := ⟨none, none⟩

/-! ### Claim theorems -/

/-- C1: with the simulate flag set, every facade operation is serviced by
the mock layer: it resolves successfully, performs zero transport
invocations, and its outcome does not depend on the configured credentials
or on the transport at all — in particular it succeeds with no credential
configured for the selected provider. -/
theorem c1_simulate_never_touches_network (text topic concept : String) (count : Nat)
    (provider provider2 : AIProvider) (env env2 : Env) (tr tr2 : Transport) (ctx : Ctx) :
    ((analyzeSingleTweet text true provider env tr ctx).2 = 0
      ∧ (analyzeSingleTweet text true provider env tr ctx).1.isOk = true
      ∧ analyzeSingleTweet text true provider env tr ctx
          = analyzeSingleTweet text true provider2 env2 tr2 ctx)
    ∧ ((generateAndAnalyzeTopic topic count true provider env tr ctx).2 = 0
      ∧ (generateAndAnalyzeTopic topic count true provider env tr ctx).1.isOk = true
      ∧ generateAndAnalyzeTopic topic count true provider env tr ctx
          = generateAndAnalyzeTopic topic count true provider2 env2 tr2 ctx)
    ∧ ((explainNLPConcept concept true provider env tr ctx).2 = 0
      ∧ (explainNLPConcept concept true provider env tr ctx).1.isOk = true
      ∧ explainNLPConcept concept true provider env tr ctx
          = explainNLPConcept concept true provider2 env2 tr2 ctx) :=
  ⟨⟨rfl, rfl, rfl⟩, ⟨rfl, rfl, rfl⟩, ⟨rfl, rfl, rfl⟩⟩

/-- C5: the Groq batch path unwraps an envelope object under the `tweets`
key and a bare array to the same sequence of inner objects. -/
theorem c5_envelope_and_bare_array_equivalent (o1 o2 : Json) :
    unwrapTweets (Json.obj [("tweets", Json.arr [o1, o2])]) = Json.arr [o1, o2]
    ∧ unwrapTweets (Json.arr [o1, o2]) = Json.arr [o1, o2]
    ∧ asArray (unwrapTweets (Json.obj [("tweets", Json.arr [o1, o2])]))
        = asArray (unwrapTweets (Json.arr [o1, o2])) :=
  ⟨rfl, rfl, rfl⟩

/-- C6: for every text and every confidence draw in `[0,1)`, the mock
classifier's label is one of the three `SentimentType` members and its
score lies in `[0,1]`. -/
theorem c6_classifier_label_and_score_range (text : String) (r : ℚ)
    (h0 : 0 ≤ r) (h1 : r < 1) :
    ((getMockAnalysis text r).sentiment = SentimentType.POSITIVE
      ∨ (getMockAnalysis text r).sentiment = SentimentType.NEGATIVE
      ∨ (getMockAnalysis text r).sentiment = SentimentType.NEUTRAL)
    ∧ 0 ≤ (getMockAnalysis text r).score ∧ (getMockAnalysis text r).score ≤ 1 := by
  refine ⟨?_, ?_, ?_⟩
  · by_cases hp : mockPosHit text
    · exact Or.inl (by simp [getMockAnalysis, hp])
    · by_cases hq : mockNegHit text
      · exact Or.inr (Or.inl (by simp [getMockAnalysis, hp, hq]))
      · exact Or.inr (Or.inr (by simp [getMockAnalysis, hp, hq]))
  · rw [show (getMockAnalysis text r).score = 0.75 + r * 0.24 from rfl]
    nlinarith [h0, h1]
  · rw [show (getMockAnalysis text r).score = 0.75 + r * 0.24 from rfl]
    nlinarith [h0, h1]

/-- C6 witness at `text = "x"`, `r = 0`. -/
theorem c6_witness :
    (0 : ℚ) ≤ 0 ∧ (0 : ℚ) < 1
    ∧ (((getMockAnalysis ("x") 0).sentiment = SentimentType.POSITIVE
        ∨ (getMockAnalysis ("x") 0).sentiment = SentimentType.NEGATIVE
        ∨ (getMockAnalysis ("x") 0).sentiment = SentimentType.NEUTRAL)
      ∧ 0 ≤ (getMockAnalysis ("x") 0).score ∧ (getMockAnalysis ("x") 0).score ≤ 1) :=
  ⟨le_refl 0, by norm_num,
    c6_classifier_label_and_score_range ("x") 0 (le_refl 0) (by norm_num)⟩

/-- Spells out the score of the classifier for reuse in range proofs. -/
theorem getMockAnalysis_score (text : String) (r : ℚ) :
    (getMockAnalysis text r).score = 0.75 + r * 0.24 := rfl

/-- C10: the positive-word check takes precedence: any text matching both
keyword lists is labelled Positive, for every confidence draw. -/
theorem c10_positive_list_precedence (text : String) (r : ℚ)
    (hp : mockPosHit text = true) (hn : mockNegHit text = true) :
    (getMockAnalysis text r).sentiment = SentimentType.POSITIVE := by
  simp [getMockAnalysis, hp]

/-- C10 witness: a text containing `love` (positive list) and `worst`
(negative list). -/
theorem c10_witness :
    mockPosHit ("I love the worst update") = true
    ∧ mockNegHit ("I love the worst update") = true
    ∧ (getMockAnalysis ("I love the worst update") 0).sentiment = SentimentType.POSITIVE :=
  ⟨rfl, rfl, c10_positive_list_precedence ("I love the worst update") 0 rfl rfl⟩

/-- The end-to-end scenario input of C9. -/
def c9text : String := "This update is absolutely terrible"

/-- C9: simulate-mode single analysis of the scenario text yields, for any
in-range confidence draw, a Negative label, a score in `[0.70, 1.00]`, the
fixed rationale marked as simulated, and a non-empty keyword list. -/
theorem c9_scenario_terrible_negative (provider : AIProvider) (env : Env)
    (tr : Transport) (ctx : Ctx) (h0 : 0 ≤ ctx.rand 0) (h1 : ctx.rand 0 < 1) :
    (analyzeSingleTweet c9text true provider env tr ctx).1
      = Except.ok
          { id := ctx.uuid 0
            text := some (.str c9text)
            author := "@DemoUser"
            timestamp := ctx.now
            analysis := some (SentimentAnalysis.toV (getMockAnalysis c9text (ctx.rand 0))) }
    ∧ (getMockAnalysis c9text (ctx.rand 0)).sentiment = SentimentType.NEGATIVE
    ∧ (0.70 : ℚ) ≤ (getMockAnalysis c9text (ctx.rand 0)).score
    ∧ (getMockAnalysis c9text (ctx.rand 0)).score ≤ 1
    ∧ (getMockAnalysis c9text (ctx.rand 0)).reasoning
        = "Simulated analysis based on keyword matching in Demo Mode."
    ∧ strIncludes (getMockAnalysis c9text (ctx.rand 0)).reasoning ("Simulated") = true
    ∧ (getMockAnalysis c9text (ctx.rand 0)).keywords = ["update", "absolutely", "terrible"] := by
  refine ⟨rfl, rfl, ?_, ?_, rfl, rfl, rfl⟩
  · rw [show (getMockAnalysis c9text (ctx.rand 0)).score = 0.75 + ctx.rand 0 * 0.24 from rfl]
    nlinarith [h0, h1]
  · rw [show (getMockAnalysis c9text (ctx.rand 0)).score = 0.75 + ctx.rand 0 * 0.24 from rfl]
    nlinarith [h0, h1]

/-- C9 witness with the all-zero random stream. -/
theorem c9_witness :
    (analyzeSingleTweet c9text true AIProvider.gemini env0 tr0 ctx0).1.isOk = true
    ∧ (getMockAnalysis c9text (ctx0.rand 0)).sentiment = SentimentType.NEGATIVE
    ∧ (getMockAnalysis c9text (ctx0.rand 0)).keywords = ["update", "absolutely", "terrible"] := by
  have h := c9_scenario_terrible_negative AIProvider.gemini env0 tr0 ctx0
    (le_refl 0) (by norm_num [ctx0])
  exact ⟨by simp only [h.1]; rfl, h.2.1, h.2.2.2.2.2.2⟩

/-- C2: in live mode, a provider whose credential is unset fails with the
`API_KEY_MISSING` error (the code's MissingCredential marker, matched
verbatim by the caller) before any transport attempt: zero transport
invocations, on every operation of both adapters. -/
theorem c2_live_without_credential_fails_first (text topic concept : String) (count : Nat)
    (envG envQ : Env) (tr : Transport) (ctx : Ctx)
    (hg : envG.apiKey = none) (hq : envQ.groqApiKey = none) :
    analyzeSingleTweet text false .gemini envG tr ctx
        = (Except.error (.thrown "API_KEY_MISSING"), 0)
    ∧ generateAndAnalyzeTopic topic count false .gemini envG tr ctx
        = (Except.error (.thrown "API_KEY_MISSING"), 0)
    ∧ explainNLPConcept concept false .gemini envG tr ctx
        = (Except.error (.thrown "API_KEY_MISSING"), 0)
    ∧ analyzeSingleTweet text false .groq envQ tr ctx
        = (Except.error (.thrown "API_KEY_MISSING"), 0)
    ∧ generateAndAnalyzeTopic topic count false .groq envQ tr ctx
        = (Except.error (.thrown "API_KEY_MISSING"), 0)
    ∧ explainNLPConcept concept false .groq envQ tr ctx
        = (Except.error (.thrown "API_KEY_MISSING"), 0) := by
  refine ⟨?_, ?_, ?_, ?_, ?_, ?_⟩ <;>
    simp [analyzeSingleTweet, generateAndAnalyzeTopic, explainNLPConcept, callGroq,
      keyPresent, hg, hq]

/-- C2 witness with both credentials unset. -/
theorem c2_witness :
    analyzeSingleTweet ("hi") false .gemini env0 tr0 ctx0
        = (Except.error (.thrown "API_KEY_MISSING"), 0)
    ∧ generateAndAnalyzeTopic ("ai") 3 false .gemini env0 tr0 ctx0
        = (Except.error (.thrown "API_KEY_MISSING"), 0)
    ∧ explainNLPConcept ("Tokenization") false .gemini env0 tr0 ctx0
        = (Except.error (.thrown "API_KEY_MISSING"), 0)
    ∧ analyzeSingleTweet ("hi") false .groq env0 tr0 ctx0
        = (Except.error (.thrown "API_KEY_MISSING"), 0)
    ∧ generateAndAnalyzeTopic ("ai") 3 false .groq env0 tr0 ctx0
        = (Except.error (.thrown "API_KEY_MISSING"), 0)
    ∧ explainNLPConcept ("Tokenization") false .groq env0 tr0 ctx0
        = (Except.error (.thrown "API_KEY_MISSING"), 0) :=
  c2_live_without_credential_fails_first ("hi") ("ai") ("Tokenization") 3 env0 env0 tr0 ctx0
    rfl rfl

/-- Keyword procedure exactly as claim C8 words it, for comparison with the
code: whitespace tokenization and a membership stoplist of `about` and
`there`. -/
def claimKeywordRule (text : String) : List String :=
  let toks := ((splitWs text).map (fun w => lowerStr (stripNonAlpha w))).filter
    (fun w => decide (4 < w.length) && !(w == "about") && !(w == "there"))
  if 0 < (toks.take 3).length then toks.take 3 else ["demo", "analysis"]

/-- Unfolding equation for `extractKeywords`. -/
theorem extractKeywords_eq (text : String) :
    extractKeywords text =
      if 0 < ((mockTokens text).take 3).length then (mockTokens text).take 3
      else ["demo", "analysis"] := rfl

/-- C8 counterexample: the code splits on the space character only (a tab
does not separate tokens) and drops every token that merely CONTAINS a
stoplist word (`whereabouts` contains `about`), so on this input the
code's keywords differ from the claim's described procedure. -/
theorem c8_counterexample :
    extractKeywords ("check\tthe whereabouts tomorrow evening")
        = ["checkthe", "tomorrow", "evening"]
    ∧ claimKeywordRule ("check\tthe whereabouts tomorrow evening")
        = ["check", "whereabouts", "tomorrow"]
    ∧ extractKeywords ("check\tthe whereabouts tomorrow evening")
        ≠ claimKeywordRule ("check\tthe whereabouts tomorrow evening") := by
  refine ⟨rfl, rfl, ?_⟩
  decide

/-- C8 amended: the classifier's keyword pass splits on the space character,
strips non-letters, lower-cases, keeps tokens longer than 4 characters that
do not contain `about` or `there` as a substring, returns the first 3
survivors in order, and falls back to the fixed pair `[demo, analysis]`
when none survive — hence the result is never empty, has at most 3 entries,
and is a deterministic function of the text. -/
theorem c8_amended_keyword_rule (text : String) :
    extractKeywords text ≠ []
    ∧ (extractKeywords text).length ≤ 3
    ∧ (mockTokens text ≠ [] → extractKeywords text = (mockTokens text).take 3)
    ∧ (mockTokens text = [] → extractKeywords text = ["demo", "analysis"])
    ∧ (∀ w ∈ mockTokens text, 4 < w.length
        ∧ strIncludes w ("about") = false ∧ strIncludes w ("there") = false) := by
  have tokprop : ∀ w ∈ mockTokens text, 4 < w.length
      ∧ strIncludes w ("about") = false ∧ strIncludes w ("there") = false := by
    intro w hw
    have h := (List.mem_filter.mp hw).2
    simp only [Bool.and_eq_true, decide_eq_true_eq, Bool.not_eq_true'] at h
    exact ⟨h.1.1, h.1.2, h.2⟩
  by_cases hnil : mockTokens text = []
  · have he : extractKeywords text = ["demo", "analysis"] := by
      rw [extractKeywords_eq, hnil]
      simp
    exact ⟨by simp [he], by simp [he], fun hne => absurd hnil hne, fun _ => he, tokprop⟩
  · have hpos : 0 < ((mockTokens text).take 3).length := by
      rw [List.length_take]
      have := List.length_pos.mpr hnil
      omega
    have he : extractKeywords text = (mockTokens text).take 3 := by
      rw [extractKeywords_eq, if_pos hpos]
    refine ⟨?_, ?_, ?_, ?_, tokprop⟩
    · rw [he]
      intro hcon
      rw [hcon] at hpos
      simp at hpos
    · rw [he, List.length_take]
      omega
    · intro _
      exact he
    · intro hn
      exact absurd hn hnil

/-- C8 amended witness at the specification's own worked example. -/
theorem c8_amended_witness :
    mockTokens ("I absolutely loved the keynote about something") ≠ []
    ∧ extractKeywords ("I absolutely loved the keynote about something")
        = (mockTokens ("I absolutely loved the keynote about something")).take 3 := by
  have h := c8_amended_keyword_rule ("I absolutely loved the keynote about something")
  exact ⟨by decide, h.2.2.1 (by decide)⟩

/-- Transport fixture: the structured-schema batch response is an array of
one object that omits the `keywords` field. -/
def trNoKw : Transport :=
  ⟨.ok none,
   .ok (some "[\x7b\"text\":\"hi\",\"sentiment\":\"Positive\"\x7d]"),
   .ok none, .reject none⟩

/-- C3 counterexample: a live structured-schema batch response whose item
omits `keywords` produces a post whose analysis carries `keywords` as the
absent value (`undefined`), not the empty sequence — the batch mapping has
no `|| []` default. -/
theorem c3_counterexample :
    ((generateAndAnalyzeTopic ("t") 1 false .gemini ⟨some "k", none⟩ trNoKw ctx0).1.map
        (fun l => l.map (fun td => td.analysis.map (fun a => a.keywords))))
      = Except.ok [some none]
    ∧ (some (none : Option Json) : Option (Option Json)) ≠ some (some (Json.arr [])) :=
  ⟨rfl, by simp⟩

/-- C3 amended: the single-analysis operation substitutes the empty
sequence for an absent `keywords` field in both adapters
(`result.keywords || []`), while the batch mapping copies the field as-is,
leaving it absent when the response omits it. -/
theorem c3_amended_keywords_default (text : String) (env : Env)
    (k body st cs : String) (tr : Transport) (ctx : Ctx)
    (fields fields2 : List (String × Json)) (envl item : Json) (i : Nat)
    (hg : env.apiKey = some k) (hk : k ≠ "") (hq : env.groqApiKey = some k)
    (h1 : tr.geminiSingle = .ok (some body)) (h2 : body ≠ "")
    (h3 : parseJson body = some (Json.obj fields))
    (h4 : getField (Json.obj fields) ("keywords") = none)
    (h5 : tr.groqFetch = .resp true st (Except.ok envl))
    (h6 : groqContent envl = Except.ok cs)
    (h7 : parseJson cs = some (Json.obj fields2))
    (h8 : getField (Json.obj fields2) ("keywords") = none) :
    ((analyzeSingleTweet text false .gemini env tr ctx).1.map
        (fun td => td.analysis.map (fun a => a.keywords)))
      = Except.ok (some (some (Json.arr [])))
    ∧ ((analyzeSingleTweet text false .groq env tr ctx).1.map
        (fun td => td.analysis.map (fun a => a.keywords)))
      = Except.ok (some (some (Json.arr [])))
    ∧ (buildBatchItem ctx i item).analysis.map (fun a => a.keywords)
      = some (getField item ("keywords")) := by
  have hkp : keyPresent (some k) = true := by
    simp [keyPresent, hk]
  refine ⟨?_, ?_, rfl⟩
  · simp [analyzeSingleTweet, hg, hkp, h1, strOr, beq_iff_eq, h2, h3,
      buildSingleResult, h4, jsOr, Except.map]
  · simp [analyzeSingleTweet, callGroq, hq, hkp, h5, h6, h7,
      buildSingleResult, h8, jsOr, Except.map]

/-- Response body used by the C3 amended witness. -/
def c3body : String := "\x7b\"sentiment\":\"Positive\"\x7d"

/-- Chat-completion envelope wrapping `c3body` as assistant content. -/
def c3envelope : Json :=
  Json.obj [("choices", Json.arr
    [Json.obj [("message", Json.obj [("content", Json.str c3body)])]])]

/-- Transport fixture for the C3 amended witness. -/
def trC3 : Transport :=
  ⟨.ok (some c3body), .ok none, .ok none, .resp true ("OK") (Except.ok c3envelope)⟩

/-- C3 amended witness: both single-analysis adapters default the missing
`keywords` to the empty array on a concrete credential, transport and
response. -/
theorem c3_amended_witness :
    ((analyzeSingleTweet ("hi") false .gemini ⟨some "k", some "k"⟩ trC3 ctx0).1.map
        (fun td => td.analysis.map (fun a => a.keywords)))
      = Except.ok (some (some (Json.arr [])))
    ∧ ((analyzeSingleTweet ("hi") false .groq ⟨some "k", some "k"⟩ trC3 ctx0).1.map
        (fun td => td.analysis.map (fun a => a.keywords)))
      = Except.ok (some (some (Json.arr [])))
    ∧ (buildBatchItem ctx0 0 (Json.obj [("text", Json.str "hi")])).analysis.map
        (fun a => a.keywords)
      = some (getField (Json.obj [("text", Json.str "hi")]) ("keywords")) :=
  c3_amended_keywords_default ("hi") ⟨some "k", some "k"⟩ ("k") c3body ("OK") c3body
    trC3 ctx0 [("sentiment", Json.str "Positive")] [("sentiment", Json.str "Positive")]
    c3envelope (Json.obj [("text", Json.str "hi")]) 0
    rfl (by decide) rfl rfl (by decide) rfl rfl rfl rfl rfl rfl

/-- Transport fixture: reachable backend, OK status, body not parseable as
JSON (the runtime `SyntaxError` carries an empty message here). -/
def trBadBody : Transport := ⟨.ok none, .ok none, .ok none, .resp true ("OK") (Except.error "")⟩

/-- Transport fixture: network-level failure, no response at all. -/
def trNetFail : Transport := ⟨.ok none, .ok none, .ok none, .reject none⟩

/-- Configuration with only the chat-completion credential set. -/
def envQ : Env := ⟨none, some "g"⟩

/-- C4 counterexample: with a present-but-unparseable response body,
`explain` rejects with the very same generic connection-failure error value
it produces for a pure network failure — the failure carries no distinct
invalid-response kind, so it is not the taxonomy's `ProviderResponseInvalid`
(which §7 reserves for unparseable bodies, while this value has §7's
`ProviderUnreachable` "connection failed" semantics). -/
theorem c4_counterexample :
    explainNLPConcept ("Tokenization") false .groq envQ trBadBody ctx0
      = (Except.error (.thrown "Failed to connect to Groq API"), 1)
    ∧ explainNLPConcept ("Tokenization") false .groq envQ trNetFail ctx0
      = (Except.error (.thrown "Failed to connect to Groq API"), 1) :=
  ⟨rfl, rfl⟩

/-- C4 amended: a present-but-unparseable body makes `explain` reject with
a handled generic `Error` whose message is the runtime parse message, or
the connection-failure fallback text when that message is empty; the parse
exception never propagates unhandled, but no distinct invalid-response
error kind exists. -/
theorem c4_amended_wrapped_parse_failure (concept st pm k : String) (env : Env)
    (tr : Transport) (ctx : Ctx)
    (hq : env.groqApiKey = some k) (hk : k ≠ "")
    (hf : tr.groqFetch = .resp true st (Except.error pm)) :
    explainNLPConcept concept false .groq env tr ctx
      = (Except.error (.thrown
          (if pm = "" then "Failed to connect to Groq API" else pm)), 1) := by
  have hkp : keyPresent (some k) = true := by
    simp [keyPresent, hk]
  by_cases hpm : pm = "" <;>
    simp [explainNLPConcept, callGroq, hq, hkp, hf, strOrS, beq_iff_eq, hpm]

/-- Transport fixture for the C4 amended witness: the runtime parse error
carries a message. -/
def trBadBody2 : Transport :=
  ⟨.ok none, .ok none, .ok none, .resp true ("OK") (Except.error "Unexpected token i in JSON")⟩

/-- C4 amended witness on a concrete unparseable body. -/
theorem c4_amended_witness :
    explainNLPConcept ("Tokenization") false .groq envQ trBadBody2 ctx0
      = (Except.error (.thrown "Unexpected token i in JSON"), 1) := by
  have h := c4_amended_wrapped_parse_failure ("Tokenization") ("OK")
    ("Unexpected token i in JSON") ("g") envQ trBadBody2 ctx0 rfl (by decide) rfl
  simpa using h

/-- A string of length zero is the empty string. -/
theorem str_len_zero (s : String) (h : s.length = 0) : s = "" := by
  cases s with
  | mk data =>
    cases data with
    | nil => rfl
    | cons c cs => simp [String.length] at h

/-- A template with a non-empty constant suffix never produces `""`. -/
theorem tmpl_ne_empty (pre suf t : String) (h : suf ≠ "") : tmpl pre suf t ≠ "" := by
  intro hc
  apply h
  have hl : (pre ++ t ++ suf).length = 0 := congrArg String.length hc
  rw [String.length_append, String.length_append] at hl
  exact str_len_zero suf (by omega)

/-- `getD` at an in-range index is a member of the list. -/
theorem getD_mem_of_lt {α : Type} (l : List α) (n : Nat) (d : α) (h : n < l.length) :
    l.getD n d ∈ l := by
  rw [List.getD_eq_getElem?_getD, List.getElem?_eq_getElem h]
  exact List.getElem_mem h

/-- `Math.floor(r * n)` is an in-range index for `r` in `[0,1)`. -/
theorem ratFloorNat_lt (r : ℚ) (n : Nat) (hn : 0 < n) (h1 : r < 1) :
    ratFloorNat (r * n) < n := by
  have hnq : (0 : ℚ) < n := by exact_mod_cast hn
  have hlt : r * n < (n : ℚ) := by nlinarith
  have hf : Rat.floor (r * n) < (n : ℤ) := by
    by_contra hle
    push_neg at hle
    have := Rat.le_floor.mp hle
    push_cast at this
    linarith
  unfold ratFloorNat
  omega

/-- Every template of every pool yields non-empty text on every topic. -/
theorem mock_template_ne_empty (ty : SentimentType) (f : String → String)
    (hf : f ∈ MOCK_TEMPLATES ty) (t : String) : f t ≠ "" := by
  cases ty
  · simp only [MOCK_TEMPLATES, List.mem_cons, List.not_mem_nil, or_false] at hf
    rcases hf with rfl|rfl|rfl|rfl|rfl|rfl|rfl|rfl <;> exact tmpl_ne_empty _ _ _ (by decide)
  · simp only [MOCK_TEMPLATES, List.mem_cons, List.not_mem_nil, or_false] at hf
    rcases hf with rfl|rfl|rfl|rfl|rfl|rfl|rfl|rfl <;> exact tmpl_ne_empty _ _ _ (by decide)
  · simp only [MOCK_TEMPLATES, List.mem_cons, List.not_mem_nil, or_false] at hf
    rcases hf with rfl|rfl|rfl|rfl|rfl|rfl|rfl <;> exact tmpl_ne_empty _ _ _ (by decide)

/-- The selected template yields non-empty text for any in-range draw. -/
theorem mockTemplateOf_ne_empty (ty : SentimentType) (r : ℚ) (topic : String)
    (h1 : r < 1) : mockTemplateOf ty r topic ≠ "" := by
  have hlen : 0 < (MOCK_TEMPLATES ty).length := by
    cases ty <;> simp [MOCK_TEMPLATES]
  exact mock_template_ne_empty ty _
    (getD_mem_of_lt _ _ _ (ratFloorNat_lt r _ hlen h1)) topic

/-- C7: for every topic, count and in-range random stream, the simulate
batch operation returns exactly `count` posts, each with an analysis
present whose label is one of the three sentiment labels, and each with
non-empty text. -/
theorem c7_mock_batch_count_and_validity (topic : String) (count : Nat)
    (provider : AIProvider) (env : Env) (tr : Transport) (ctx : Ctx)
    (hr : ∀ n, 0 ≤ ctx.rand n ∧ ctx.rand n < 1) :
    (generateAndAnalyzeTopic topic count true provider env tr ctx).1
      = Except.ok ((List.range count).map (mockBatchItem topic ctx))
    ∧ ((List.range count).map (mockBatchItem topic ctx)).length = count
    ∧ ∀ td ∈ (List.range count).map (mockBatchItem topic ctx),
        (∃ a, td.analysis = some a
          ∧ (a.sentiment = some (.str "Positive") ∨ a.sentiment = some (.str "Negative")
              ∨ a.sentiment = some (.str "Neutral")))
        ∧ (∃ s, td.text = some (.str s) ∧ s ≠ "") := by
  refine ⟨rfl, by simp, ?_⟩
  intro td htd
  rcases List.mem_map.mp htd with ⟨i, _, rfl⟩
  constructor
  · refine ⟨_, rfl, ?_⟩
    cases hty : mockClassOf (ctx.rand (4 * i)) <;>
      simp [mockBatchItem, SentimentAnalysis.toV, SentimentType.toStr, hty]
  · refine ⟨mockTemplateOf (mockClassOf (ctx.rand (4 * i))) (ctx.rand (4 * i + 1)) topic,
      rfl, ?_⟩
    exact mockTemplateOf_ne_empty _ _ topic (hr (4 * i + 1)).2

/-- C7 witness with the all-zero random stream and `count = 2`. -/
theorem c7_witness :
    (generateAndAnalyzeTopic ("ai") 2 true .gemini env0 tr0 ctx0).1
      = Except.ok ((List.range 2).map (mockBatchItem ("ai") ctx0))
    ∧ ((List.range 2).map (mockBatchItem ("ai") ctx0)).length = 2 := by
  have h := c7_mock_batch_count_and_validity ("ai") 2 .gemini env0 tr0 ctx0
    (fun n => ⟨le_refl 0, by norm_num [ctx0]⟩)
  exact ⟨h.1, h.2.1⟩

end SentimAI
